import Mathlib

/-
Shallow embedding of the fastly-object-storage TypeScript SDK.

The embedding follows the source files of the repository:
  src/client.ts                          (FastlyStorageClient, FastlyStorageError)
  src/operations/BucketOperations.ts
  src/operations/ObjectOperations.ts
  src/operations/MultipartOperations.ts
  src/utils/validation.ts
  src/utils/stream.ts

Modelling conventions:
- JavaScript string falsiness (empty string is falsy under the || operator)
  is modelled by jsOrStr; number falsiness (0 is falsy) by jsOrInt; the
  nullish operator ?? by Option.getD.
- Every network interaction (S3Client.send, awaited inside each operation)
  is modelled by an explicit response oracle of type Except JsError R passed
  to the operation: Except.error is the send call throwing, Except.ok is the
  raw response object.  Request construction (the Command objects) forwards
  caller data verbatim and is observable only through the oracle, so it is
  not reified.
- try/catch is modelled explicitly: everything thrown inside an operation's
  try block (whether the send error or a locally constructed
  FastlyStorageError) flows through the catch handler, which applies
  FastlyStorageError.fromS3Error to the thrown value viewed as a plain
  JS Error.  A FastlyStorageError viewed as a JS Error has name equal to
  "FastlyStorageError" and no S3 response metadata.
- The diagnostic cause field and the captured stack trace of
  FastlyStorageError are omitted: they carry no behaviour.
-/

/-- JavaScript a || b for an optional string a: the empty string is falsy. -/
def jsOrStr (a : Option String) (b : String) : String :=
  match a with
  | none => b
  | some s => if s == "" then b else s

/-- JavaScript a || b for an optional number a: 0 is falsy. -/
def jsOrInt (a : Option Int) (b : Int) : Int :=
  match a with
  | none => b
  | some n => if n == 0 then b else n

/-- JavaScript falsiness test for an optional string (undefined or ""). -/
def strOptFalsy (a : Option String) : Bool :=
  match a with
  | none => true
  | some s => s == ""

/-- The normalized error shape of src/errors/FastlyStorageError.ts (the
FastlyStorageError class): message, stable code, optional HTTP status and
a context map.  The diagnostic cause / stack fields are omitted. -/
structure FastlyStorageError where
  message : String
  code : String
  statusCode : Option Int := none
  context : List (String × String) := []
  deriving Repr, DecidableEq

/-- A raw JavaScript Error as seen by FastlyStorageError.fromS3Error: its
name, message, and the optional S3 response metadata fields it may carry. -/
structure JsError where
  name : String
  message : String
  metadataStatus : Option Int := none
  metadataRequestId : Option String := none
  deriving Repr, DecidableEq

/-- A value thrown inside an operation's try block: either an error coming
out of the underlying S3 client's send, or a locally constructed
FastlyStorageError. -/
inductive Thrown where
  | s3 (e : JsError)
  | fs (e : FastlyStorageError)
  deriving Repr, DecidableEq

/-- How a thrown value looks to the catch handler's fromS3Error cast: a
FastlyStorageError instance has name "FastlyStorageError" (set in its
constructor) and carries no S3 response metadata. -/
def Thrown.toJsError : Thrown → JsError
  | .s3 e => e
  | .fs e => { name := "FastlyStorageError", message := e.message }

/-- FastlyStorageError.fromS3Error (src/errors/FastlyStorageError.ts):
message falls back on "S3 operation failed", the code is NOT_FOUND for a
metadata status of exactly 404 and otherwise the error name (falling back
on UNKNOWN_ERROR), the status is the metadata status, and the request id
is appended to the supplied context. -/
def fromS3Error (e : JsError) (ctx : List (String × String)) : FastlyStorageError :=
  { message := if e.message == "" then "S3 operation failed" else e.message
    code :=
      if e.metadataStatus = some 404 then "NOT_FOUND"
      else if e.name == "" then "UNKNOWN_ERROR" else e.name
    statusCode := e.metadataStatus
    context := ctx ++ (match e.metadataRequestId with
                       | some rid => [("requestId", rid)]
                       | none => []) }

/-- The catch handler shared by every operation: wrap whatever was thrown
through fromS3Error with the operation's context. -/
def wrapCatch (t : Thrown) (ctx : List (String × String)) : FastlyStorageError :=
  fromS3Error t.toJsError ctx

/-- FastlyStorageError.isRetryable (src/errors/FastlyStorageError.ts).
The early return on a falsy statusCode (undefined or 0) is modelled
first, exactly as in the source. -/
def FastlyStorageError.isRetryable (e : FastlyStorageError) : Bool :=
  match e.statusCode with
  | none => false
  | some s =>
    if s == 0 then false
    else if 500 ≤ s then true
    else if s == 429 then true
    else if s == 408 then true
    else if e.code == "ECONNRESET" || e.code == "ETIMEDOUT" then true
    else false

/-- The retryability predicate exactly as the specification words it:
true for a status of 5xx, 429 or 408, or for a known transient network
code, with no requirement that a status be present. -/
def specRetryable (e : FastlyStorageError) : Bool :=
  (match e.statusCode with
   | some s => decide (500 ≤ s) || s == 429 || s == 408
   | none => false)
  || e.code == "ECONNRESET" || e.code == "ETIMEDOUT"

/-- C3 counterexample: a normalized error carrying the transient network
code ECONNRESET but no HTTP status (the usual shape of a connection-reset
failure) is retryable according to the claim, yet isRetryable returns
false because of its early return on a missing status. -/
theorem isRetryable_claim_cex :
    specRetryable { message := "socket hang up", code := "ECONNRESET" } = true ∧
    FastlyStorageError.isRetryable { message := "socket hang up", code := "ECONNRESET" } = false := by
  exact ⟨rfl, rfl⟩

/-- C3 (amended): isRetryable returns true exactly when the error carries
a present, nonzero HTTP status code that is at least 500, or equal to 429,
or equal to 408, or (still requiring such a status) the error code is
ECONNRESET or ETIMEDOUT; with an absent or zero status it returns false
even for transient network codes. -/
theorem isRetryable_iff (e : FastlyStorageError) :
    e.isRetryable = true ↔
      ∃ s, e.statusCode = some s ∧ s ≠ 0 ∧
        (500 ≤ s ∨ s = 429 ∨ s = 408 ∨ e.code = "ECONNRESET" ∨ e.code = "ETIMEDOUT") := by
  cases e with
  | mk message code statusCode context =>
    cases statusCode with
    | none => simp [FastlyStorageError.isRetryable]
    | some s =>
      simp only [FastlyStorageError.isRetryable, Option.some.injEq]
      constructor
      · intro h
        refine ⟨s, rfl, ?_⟩
        by_cases h0 : s = 0
        · simp [h0] at h
        refine ⟨h0, ?_⟩
        by_cases h5 : 500 ≤ s
        · exact Or.inl h5
        by_cases h429 : s = 429
        · exact Or.inr (Or.inl h429)
        by_cases h408 : s = 408
        · exact Or.inr (Or.inr (Or.inl h408))
        simp [h0, h5, h429, h408] at h
        rcases h with h | h
        · exact Or.inr (Or.inr (Or.inr (Or.inl h)))
        · exact Or.inr (Or.inr (Or.inr (Or.inr h)))
      · rintro ⟨t, ht, h0, hcs⟩
        cases ht
        by_cases h5 : 500 ≤ s
        · simp [h0, h5]
        by_cases h429 : s = 429
        · simp [h0, h429]
        by_cases h408 : s = 408
        · simp [h0, h408]
        rcases hcs with h | h | h | h | h
        · exact absurd h h5
        · exact absurd h h429
        · exact absurd h h408
        · simp [h0, h5, h429, h408, h]
        · simp [h0, h5, h429, h408, h]

/-- The pluggable logger capability (src/utils/logger.ts).  Its methods
only emit console output, so a logger value is modelled by which
implementation it is: the DefaultLogger or a caller-supplied custom one
(tagged by an opaque id). -/
inductive Logger where
  | defaultLogger
  | custom (tag : Nat)
  deriving Repr, DecidableEq

/-- The RetryPolicy interface (src/types.ts).  The optional isRetryable
callback field is function-valued and never consulted by this layer, so it
is omitted. -/
structure RetryPolicy where
  maxRetries : Int
  retryDelay : Int
  retryDelayMultiplier : Int
  maxRetryDelay : Option Int := none
  deriving Repr, DecidableEq

/-- The caller-supplied partial configuration (FastlyStorageConfig in
src/types.ts): every field optional. -/
structure FastlyStorageConfig where
  endpoint : Option String := none
  accessKeyId : Option String := none
  secretAccessKey : Option String := none
  region : Option String := none
  maxRetries : Option Int := none
  timeout : Option Int := none
  logger : Option Logger := none
  retryPolicy : Option RetryPolicy := none
  forcePathStyle : Option Bool := none
  deriving Repr, DecidableEq

/-- The process environment variables the client consults. -/
structure Env where
  FASTLY_ENDPOINT : Option String := none
  FASTLY_ACCESS_KEY_ID : Option String := none
  FASTLY_SECRET_ACCESS_KEY : Option String := none
  FASTLY_REGION : Option String := none
  deriving Repr, DecidableEq

/-- The fully-populated configuration (Required FastlyStorageConfig). -/
structure MergedConfig where
  endpoint : String
  accessKeyId : String
  secretAccessKey : String
  region : String
  maxRetries : Int
  timeout : Int
  logger : Logger
  retryPolicy : RetryPolicy
  forcePathStyle : Bool
  deriving Repr, DecidableEq

/-- FastlyStorageClient._mergeConfig (src/client.ts lines 337-353): string
fields use ||-chains over the explicit value, the environment variable and
a default; maxRetries, timeout and forcePathStyle use the nullish operator;
logger and retryPolicy use || on object values (never falsy, hence getD). -/
def mergeConfig (config : FastlyStorageConfig) (env : Env) : MergedConfig :=
  { endpoint := jsOrStr config.endpoint (jsOrStr env.FASTLY_ENDPOINT "")
    accessKeyId := jsOrStr config.accessKeyId (jsOrStr env.FASTLY_ACCESS_KEY_ID "")
    secretAccessKey := jsOrStr config.secretAccessKey (jsOrStr env.FASTLY_SECRET_ACCESS_KEY "")
    region := jsOrStr config.region (jsOrStr env.FASTLY_REGION "us-east-1")
    maxRetries := config.maxRetries.getD 3
    timeout := config.timeout.getD 30000
    logger := config.logger.getD .defaultLogger
    retryPolicy := config.retryPolicy.getD
      { maxRetries := 3, retryDelay := 1000, retryDelayMultiplier := 2 }
    forcePathStyle := config.forcePathStyle.getD true }

/-- Presence of an optional string field in the sense of the merge: a
provided, non-empty value. -/
def presentStr (a : Option String) : Bool :=
  match a with
  | none => false
  | some s => !(s == "")

/-- The specification's resolution rule for a string field: take the
explicit field if present, else the same-purpose environment variable,
else the default. -/
def resolveStr (explicit envVar : Option String) (dflt : String) : String :=
  if presentStr explicit then explicit.getD ""
  else if presentStr envVar then envVar.getD ""
  else dflt

/-- The specification's resolution rule for a field with no environment
fallback: the explicit field if provided, else the default. -/
def resolveProvided {α : Type} (explicit : Option α) (dflt : α) : α :=
  if explicit.isSome then explicit.getD dflt else dflt

/-- The configuration merge exactly as the specification words it,
field by field; endpoint and the two credentials have no default (they
resolve to the empty string and are rejected later by validation). -/
def mergeConfigSpec (config : FastlyStorageConfig) (env : Env) : MergedConfig :=
  { endpoint := resolveStr config.endpoint env.FASTLY_ENDPOINT ""
    accessKeyId := resolveStr config.accessKeyId env.FASTLY_ACCESS_KEY_ID ""
    secretAccessKey := resolveStr config.secretAccessKey env.FASTLY_SECRET_ACCESS_KEY ""
    region := resolveStr config.region env.FASTLY_REGION "us-east-1"
    maxRetries := resolveProvided config.maxRetries 3
    timeout := resolveProvided config.timeout 30000
    logger := resolveProvided config.logger .defaultLogger
    retryPolicy := resolveProvided config.retryPolicy
      { maxRetries := 3, retryDelay := 1000, retryDelayMultiplier := 2 }
    forcePathStyle := resolveProvided config.forcePathStyle true }

/-- validateConfig (src/utils/validation.ts): the checks in source order,
returning the first failure.  URL syntax checking (the WHATWG URL
constructor) is an external capability, passed as the urlValid oracle. -/
def validateConfig (c : MergedConfig) (urlValid : String → Bool) : Option FastlyStorageError :=
  if c.endpoint == "" then
    some { message := "Endpoint is required. Set FASTLY_ENDPOINT environment variable or provide in config."
           code := "INVALID_CONFIG", context := [("field", "endpoint")] }
  else if c.accessKeyId == "" then
    some { message := "Access Key ID is required. Set FASTLY_ACCESS_KEY_ID environment variable or provide in config."
           code := "INVALID_CONFIG", context := [("field", "accessKeyId")] }
  else if c.secretAccessKey == "" then
    some { message := "Secret Access Key is required. Set FASTLY_SECRET_ACCESS_KEY environment variable or provide in config."
           code := "INVALID_CONFIG", context := [("field", "secretAccessKey")] }
  else if !urlValid c.endpoint then
    some { message := "Invalid endpoint URL", code := "INVALID_CONFIG"
           context := [("field", "endpoint"), ("value", c.endpoint)] }
  else if c.maxRetries < 0 then
    some { message := "maxRetries must be non-negative", code := "INVALID_CONFIG"
           context := [("field", "maxRetries")] }
  else if c.timeout ≤ 0 then
    some { message := "timeout must be positive", code := "INVALID_CONFIG"
           context := [("field", "timeout")] }
  else none

/-- The configuration handed to the underlying S3Client
(FastlyStorageClient._initializeS3Client, src/client.ts lines 355-371). -/
structure S3ClientModel where
  endpoint : String
  region : String
  accessKeyId : String
  secretAccessKey : String
  forcePathStyle : Bool
  maxAttempts : Int
  requestTimeout : Int
  deriving Repr, DecidableEq

/-- FastlyStorageClient._initializeS3Client: the underlying client is
constructed with maxAttempts equal to maxRetries + 1. -/
def initializeS3Client (c : MergedConfig) : S3ClientModel :=
  { endpoint := c.endpoint
    region := c.region
    accessKeyId := c.accessKeyId
    secretAccessKey := c.secretAccessKey
    forcePathStyle := c.forcePathStyle
    maxAttempts := c.maxRetries + 1
    requestTimeout := c.timeout }

/-- The constructed facade: the merged configuration and the underlying
S3 client it owns. -/
structure ClientModel where
  config : MergedConfig
  s3 : S3ClientModel
  deriving Repr, DecidableEq

/-- The FastlyStorageClient constructor (src/client.ts lines 55-71):
merge, validate (throwing on failure, before any S3 client exists), then
construct the underlying S3 client.  An error result means construction
threw and no ClientModel (hence no S3 client) was produced. -/
def constructClient (config : FastlyStorageConfig) (env : Env)
    (urlValid : String → Bool) : Except FastlyStorageError ClientModel :=
  let merged := mergeConfig config env
  match validateConfig merged urlValid with
  | some e => .error e
  | none => .ok { config := merged, s3 := initializeS3Client merged }

/-- The code of the error of a failed operation, if it failed. -/
def resultErrCode {α : Type} : Except FastlyStorageError α → Option String
  | .error e => some e.code
  | .ok _ => none

/-- The status of the error of a failed operation, if it failed. -/
def resultErrStatus {α : Type} : Except FastlyStorageError α → Option (Option Int)
  | .error e => some e.statusCode
  | .ok _ => none

/-- Whether an operation result is a raised error. -/
def isErr {ε α : Type} : Except ε α → Bool
  | .error _ => true
  | .ok _ => false

/-- The disjunction of validation failure conditions named by the claim,
as a Boolean over the merged configuration. -/
def invalidConfigCond (m : MergedConfig) (urlValid : String → Bool) : Bool :=
  (m.endpoint == "") || (m.accessKeyId == "") || (m.secretAccessKey == "")
    || !urlValid m.endpoint || decide (m.maxRetries < 0) || decide (m.timeout ≤ 0)

/-- An ascii lowercase letter or digit ([a-z0-9]). -/
def isBucketChar (c : Char) : Bool :=
  (decide (c ≥ 'a') && decide (c ≤ 'z')) || (decide (c ≥ '0') && decide (c ≤ '9'))

/-- A character allowed in the middle of a bucket name ([a-z0-9.-]). -/
def isBucketMidChar (c : Char) : Bool :=
  isBucketChar c || (c == '.') || (c == '-')

/-- Whether a string matches the anchored bucket-name regular expression
of validateBucketName: a leading [a-z0-9], any run of [a-z0-9.-], and a
trailing [a-z0-9] (so at least two characters). -/
def matchesBucketRegex (s : String) : Bool :=
  match s.data with
  | [] => false
  | [_] => false
  | c :: rest =>
    isBucketChar c && isBucketChar (rest.getLastD c) && rest.dropLast.all isBucketMidChar

/-- Whether a character list contains two consecutive dots. -/
def hasDotDot : List Char → Bool
  | '.' :: '.' :: _ => true
  | _ :: rest => hasDotDot rest
  | [] => false

/-- validateBucketName (src/utils/validation.ts): required, length 3-63,
the anchored character-class pattern, and no consecutive dots, in source
order; returns the first failure. -/
def validateBucketName (name : String) : Option FastlyStorageError :=
  if name == "" then
    some { message := "Bucket name is required", code := "INVALID_BUCKET_NAME" }
  else if name.length < 3 || name.length > 63 then
    some { message := "Bucket name must be between 3 and 63 characters"
           code := "INVALID_BUCKET_NAME", context := [("name", name)] }
  else if !matchesBucketRegex name then
    some { message := "Bucket name must start and end with a letter or number, and contain only lowercase letters, numbers, dots, and hyphens"
           code := "INVALID_BUCKET_NAME", context := [("name", name)] }
  else if hasDotDot name.data then
    some { message := "Bucket name cannot contain consecutive dots"
           code := "INVALID_BUCKET_NAME", context := [("name", name)] }
  else none

/-- The raw bucket entries of a ListBuckets response (each field optional
on the wire; the source asserts presence with the ! operator, modelled by
getD with a neutral default). -/
structure RawBucket where
  Name : Option String := none
  CreationDate : Option Int := none
  deriving Repr, DecidableEq

/-- A ListBuckets response: the Buckets array may be absent. -/
structure ListBucketsResponse where
  Buckets : Option (List RawBucket) := none
  deriving Repr, DecidableEq

/-- The local BucketInfo result type (src/types.ts): name and creation
date (a timestamp). -/
structure BucketInfo where
  name : String
  creationDate : Int
  deriving Repr, DecidableEq

/-- BucketOperations.createBucket (src/operations/BucketOperations.ts
lines 20-43): builds the CreateBucketCommand from the caller arguments
with no local validation of the name and sends it; any failure of the
send is wrapped by the catch handler.  The response oracle stands for
the send of the command. -/
def createBucketOp (name : String) (resp : Except JsError Unit) :
    Except FastlyStorageError Unit :=
  match resp with
  | .error e => .error (wrapCatch (.s3 e) [("bucket", name), ("operation", "createBucket")])
  | .ok _ => .ok ()

/-- BucketOperations.listBuckets (lines 62-82): maps the raw bucket array
(defaulting to empty when absent) into BucketInfo values; a send failure
is wrapped with the listBuckets operation context. -/
def listBucketsOp (resp : Except JsError ListBucketsResponse) :
    Except FastlyStorageError (List BucketInfo) :=
  match resp with
  | .error e => .error (wrapCatch (.s3 e) [("operation", "listBuckets")])
  | .ok r =>
    .ok ((r.Buckets.getD []).map fun b =>
      { name := b.Name.getD "", creationDate := b.CreationDate.getD 0 })

/-- BucketOperations.getBucketInfo (lines 84-111): sends HeadBucket, then
calls listBuckets and searches the result for the name; when the name is
absent it throws a FastlyStorageError with code NOT_FOUND and status 404.
The whole body sits in one try block, so that inner error - as well as a
FastlyStorageError raised by listBuckets itself - reaches the catch
handler and is re-wrapped through fromS3Error. -/
def getBucketInfoOp (name : String) (headResp : Except JsError Unit)
    (listResp : Except JsError ListBucketsResponse) :
    Except FastlyStorageError BucketInfo :=
  let ctx := [("bucket", name), ("operation", "getBucketInfo")]
  match headResp with
  | .error e => .error (wrapCatch (.s3 e) ctx)
  | .ok _ =>
    match listBucketsOp listResp with
    | .error fe => .error (wrapCatch (.fs fe) ctx)
    | .ok buckets =>
      match buckets.find? (fun b => b.name == name) with
      | none =>
        .error (wrapCatch
          (.fs { message := "Bucket not found", code := "NOT_FOUND"
                 statusCode := some 404, context := [("bucket", name)] }) ctx)
      | some b => .ok b

/-- A byte stream, as produced by the S3 body: a sequence of chunks. -/
abbrev ByteStream : Type := List (List Nat)

/-- streamToBuffer (src/utils/stream.ts): concatenates the chunks of the
stream into one buffer. -/
def streamToBuffer (s : ByteStream) : List Nat := s.flatten

/-- A GetObject response: every field optional on the wire.  The Body is
a stream object, falsy only when absent. -/
structure GetObjectResponse where
  Body : Option ByteStream := none
  ContentType : Option String := none
  ContentLength : Option Int := none
  ETag : Option String := none
  LastModified : Option Int := none
  Metadata : Option (List (String × String)) := none
  deriving DecidableEq

/-- The DownloadResult type (src/types.ts). -/
structure DownloadResult where
  body : List Nat
  contentType : Option String
  contentLength : Int
  etag : String
  lastModified : Int
  metadata : List (String × String)
  deriving Repr, DecidableEq

/-- ObjectOperations.getObject (src/operations/ObjectOperations.ts lines
77-119): throws an EMPTY_BODY FastlyStorageError when the response has no
body - inside the operation's own try block, so the catch handler
re-wraps it through fromS3Error.  On success the body stream is fully
materialized; absent response fields fall back as in the source (|| for
contentLength, etag; the current date, passed as now, for lastModified).
Conditional-request options are forwarded verbatim into the request and
affect only the oracle. -/
def getObjectOp (bucket key : String) (resp : Except JsError GetObjectResponse)
    (now : Int) : Except FastlyStorageError DownloadResult :=
  let ctx := [("bucket", bucket), ("key", key), ("operation", "getObject")]
  match resp with
  | .error e => .error (wrapCatch (.s3 e) ctx)
  | .ok r =>
    match r.Body with
    | none =>
      .error (wrapCatch
        (.fs { message := "Empty response body", code := "EMPTY_BODY"
               context := [("bucket", bucket), ("key", key)] }) ctx)
    | some stream =>
      let body := streamToBuffer stream
      .ok { body := body
            contentType := r.ContentType
            contentLength := jsOrInt r.ContentLength (Int.ofNat body.length)
            etag := jsOrStr r.ETag ""
            lastModified := r.LastModified.getD now
            metadata := r.Metadata.getD [] }

/-- ObjectOperations.getObjectStream (lines 121-158): the same EMPTY_BODY
defensive check (again inside the try block), returning the unconsumed
stream on success. -/
def getObjectStreamOp (bucket key : String)
    (resp : Except JsError GetObjectResponse) : Except FastlyStorageError ByteStream :=
  let ctx := [("bucket", bucket), ("key", key), ("operation", "getObjectStream")]
  match resp with
  | .error e => .error (wrapCatch (.s3 e) ctx)
  | .ok r =>
    match r.Body with
    | none =>
      .error (wrapCatch
        (.fs { message := "Empty response body", code := "EMPTY_BODY"
               context := [("bucket", bucket), ("key", key)] }) ctx)
    | some stream => .ok stream

/-- The per-upload session record (MultipartUploadState in
src/operations/MultipartOperations.ts). -/
structure MultipartUploadState where
  uploadId : String
  bucket : String
  key : String
  deriving Repr, DecidableEq

/-- The local session map: upload id to session record. -/
abbrev SessionMap : Type := List (String × MultipartUploadState)

/-- Map.get: the value stored under a key, if any. -/
def lookupKey {α : Type} (k : String) : List (String × α) → Option α
  | [] => none
  | (k2, v) :: rest => if k2 == k then some v else lookupKey k rest

/-- Map.set: store a value under a key, replacing any previous binding. -/
def mapSet {α : Type} (k : String) (v : α) (m : List (String × α)) : List (String × α) :=
  (k, v) :: m.filter (fun p => !(p.1 == k))

/-- Map.delete: drop the binding of a key. -/
def mapDelete {α : Type} (k : String) (m : List (String × α)) : List (String × α) :=
  m.filter (fun p => !(p.1 == k))

/-- A CreateMultipartUpload response: the UploadId may be absent. -/
structure CreateMUResponse where
  UploadId : Option String := none
  deriving Repr, DecidableEq

/-- The MultipartUploadResult type (src/types.ts). -/
structure MultipartUploadResult where
  uploadId : String
  bucket : String
  key : String
  deriving Repr, DecidableEq

/-- An UploadPart response: the ETag may be absent. -/
structure UploadPartResponse where
  ETag : Option String := none
  deriving Repr, DecidableEq

/-- The UploadPartResult type (src/types.ts). -/
structure UploadPartResult where
  partNumber : Int
  etag : String
  deriving Repr, DecidableEq

/-- An input part for completeMultipartUpload (UploadPart in
src/types.ts). -/
structure UploadPartIn where
  partNumber : Int
  etag : String
  deriving Repr, DecidableEq

/-- A CompleteMultipartUpload response. -/
structure CompleteMUResponse where
  ETag : Option String := none
  VersionId : Option String := none
  Location : Option String := none
  deriving Repr, DecidableEq

/-- The UploadResult type (src/types.ts): all fields optional. -/
structure UploadResult where
  etag : Option String := none
  versionId : Option String := none
  serverSideEncryption : Option String := none
  location : Option String := none
  deriving Repr, DecidableEq

/-- The UPLOAD_NOT_FOUND error raised by the multipart operations when an
upload id is not tracked.  It is thrown before (outside) the try block,
so it surfaces unwrapped. -/
def uploadNotFoundErr (uploadId : String) : FastlyStorageError :=
  { message := "Upload ID not found", code := "UPLOAD_NOT_FOUND"
    context := [("uploadId", uploadId)] }

/-- MultipartOperations.createMultipartUpload (lines 35-82): sends the
create command; a missing (or falsy) UploadId raises NO_UPLOAD_ID inside
the try block, hence re-wrapped by the catch handler; on success the
session is registered in the map.  Returns the operation result together
with the new session map. -/
def createMultipartUploadOp (st : SessionMap) (bucket key : String)
    (resp : Except JsError CreateMUResponse) :
    Except FastlyStorageError MultipartUploadResult × SessionMap :=
  let ctx := [("bucket", bucket), ("key", key), ("operation", "createMultipartUpload")]
  match resp with
  | .error e => (.error (wrapCatch (.s3 e) ctx), st)
  | .ok r =>
    if strOptFalsy r.UploadId then
      (.error (wrapCatch
        (.fs { message := "No upload ID returned", code := "NO_UPLOAD_ID"
               context := [("bucket", bucket), ("key", key)] }) ctx), st)
    else
      let uploadId := r.UploadId.getD ""
      (.ok { uploadId := uploadId, bucket := bucket, key := key },
       mapSet uploadId { uploadId := uploadId, bucket := bucket, key := key } st)

/-- MultipartOperations.uploadPart (lines 84-133): raises UPLOAD_NOT_FOUND
(outside the try block) when the id is untracked; sends the part; a
missing (or falsy) ETag raises NO_ETAG inside the try block, hence
re-wrapped by the catch handler.  The session map is never changed. -/
def uploadPartOp (st : SessionMap) (uploadId : String) (partNumber : Int)
    (data : List Nat) (resp : Except JsError UploadPartResponse) :
    Except FastlyStorageError UploadPartResult × SessionMap :=
  match lookupKey uploadId st with
  | none => (.error (uploadNotFoundErr uploadId), st)
  | some _ =>
    let ctx := [("uploadId", uploadId), ("partNumber", toString partNumber),
                ("operation", "uploadPart")]
    match resp with
    | .error e => (.error (wrapCatch (.s3 e) ctx), st)
    | .ok r =>
      if strOptFalsy r.ETag then
        (.error (wrapCatch
          (.fs { message := "No ETag returned", code := "NO_ETAG"
                 context := [("uploadId", uploadId),
                             ("partNumber", toString partNumber)] }) ctx), st)
      else
        (.ok { partNumber := partNumber, etag := r.ETag.getD "" }, st)

/-- MultipartOperations.completeMultipartUpload (lines 135-182): raises
UPLOAD_NOT_FOUND (outside the try block) when the id is untracked; sends
the complete command with the caller-supplied parts; only after the send
succeeds is the session deleted from the map. -/
def completeMultipartUploadOp (st : SessionMap) (uploadId : String)
    (parts : List UploadPartIn) (resp : Except JsError CompleteMUResponse) :
    Except FastlyStorageError UploadResult × SessionMap :=
  match lookupKey uploadId st with
  | none => (.error (uploadNotFoundErr uploadId), st)
  | some _ =>
    match resp with
    | .error e =>
      (.error (wrapCatch (.s3 e)
        [("uploadId", uploadId), ("operation", "completeMultipartUpload")]), st)
    | .ok r =>
      (.ok { etag := r.ETag, versionId := r.VersionId, location := r.Location },
       mapDelete uploadId st)

/-- MultipartOperations.abortMultipartUpload (lines 184-213): raises
UPLOAD_NOT_FOUND (outside the try block) when the id is untracked; sends
the abort command; only after the send succeeds is the session deleted
from the map. -/
def abortMultipartUploadOp (st : SessionMap) (uploadId : String)
    (resp : Except JsError Unit) : Except FastlyStorageError Unit × SessionMap :=
  match lookupKey uploadId st with
  | none => (.error (uploadNotFoundErr uploadId), st)
  | some _ =>
    match resp with
    | .error e =>
      (.error (wrapCatch (.s3 e)
        [("uploadId", uploadId), ("operation", "abortMultipartUpload")]), st)
    | .ok _ => (.ok (), mapDelete uploadId st)

/-- The message of the error of a failed operation, if it failed. -/
def resultErrMessage {α : Type} : Except FastlyStorageError α → Option String
  | .error e => some e.message
  | .ok _ => none

theorem lookupKey_mapDelete {α : Type} (k : String) (m : List (String × α)) :
    lookupKey k (mapDelete k m) = none := by
  induction m with
  | nil => rfl
  | cons p rest ih =>
    by_cases h : p.1 == k
    · simpa [mapDelete, List.filter_cons, h] using ih
    · simpa [mapDelete, List.filter_cons, h, lookupKey] using ih

theorem uploadPart_lookup_none {st : SessionMap} {uid : String} (pn : Int)
    (data : List Nat) (resp : Except JsError UploadPartResponse)
    (h : lookupKey uid st = none) :
    uploadPartOp st uid pn data resp = (.error (uploadNotFoundErr uid), st) := by
  simp [uploadPartOp, h]

theorem complete_lookup_none {st : SessionMap} {uid : String}
    (parts : List UploadPartIn) (resp : Except JsError CompleteMUResponse)
    (h : lookupKey uid st = none) :
    completeMultipartUploadOp st uid parts resp = (.error (uploadNotFoundErr uid), st) := by
  simp [completeMultipartUploadOp, h]

theorem abort_lookup_none {st : SessionMap} {uid : String}
    (resp : Except JsError Unit) (h : lookupKey uid st = none) :
    abortMultipartUploadOp st uid resp = (.error (uploadNotFoundErr uid), st) := by
  simp [abortMultipartUploadOp, h]

theorem complete_ok_state {st : SessionMap} {uid : String}
    {parts : List UploadPartIn} {resp : Except JsError CompleteMUResponse}
    {res : UploadResult} {st2 : SessionMap}
    (h : completeMultipartUploadOp st uid parts resp = (.ok res, st2)) :
    st2 = mapDelete uid st := by
  unfold completeMultipartUploadOp at h
  cases hlk : lookupKey uid st with
  | none => rw [hlk] at h; simp at h
  | some u =>
    rw [hlk] at h
    cases resp with
    | error e => simp at h
    | ok r =>
      simp only [Prod.mk.injEq] at h
      exact h.2.symm

theorem abort_ok_state {st : SessionMap} {uid : String}
    {resp : Except JsError Unit} {st2 : SessionMap}
    (h : abortMultipartUploadOp st uid resp = (.ok (), st2)) :
    st2 = mapDelete uid st := by
  unfold abortMultipartUploadOp at h
  cases hlk : lookupKey uid st with
  | none => rw [hlk] at h; simp at h
  | some u =>
    rw [hlk] at h
    cases resp with
    | error e => simp at h
    | ok r =>
      simp only [Prod.mk.injEq] at h
      exact h.2.symm

/-- C4: for every upload id not tracked in the local session map (in
particular any id never returned by createMultipartUpload), uploadPart,
completeMultipartUpload and abortMultipartUpload each fail with the
UPLOAD_NOT_FOUND error, for any part number, payload or parts list, and
leave the session map untouched: an error, not a no-op. -/
theorem multipart_unknownId_errors (st : SessionMap) (uid : String) (pn : Int)
    (data : List Nat) (respU : Except JsError UploadPartResponse)
    (parts : List UploadPartIn) (respC : Except JsError CompleteMUResponse)
    (respA : Except JsError Unit) (h : lookupKey uid st = none) :
    uploadPartOp st uid pn data respU = (.error (uploadNotFoundErr uid), st) ∧
    completeMultipartUploadOp st uid parts respC = (.error (uploadNotFoundErr uid), st) ∧
    abortMultipartUploadOp st uid respA = (.error (uploadNotFoundErr uid), st) :=
  ⟨uploadPart_lookup_none pn data respU h, complete_lookup_none parts respC h,
   abort_lookup_none respA h⟩

/-- C4 witness: an id the empty session map does not track. -/
theorem multipart_unknownId_errors_witness :
    lookupKey "ghost" ([] : SessionMap) = none ∧
    uploadPartOp [] "ghost" 1 [0] (.ok { ETag := some "e" })
      = (.error (uploadNotFoundErr "ghost"), []) ∧
    completeMultipartUploadOp [] "ghost" [] (.ok {})
      = (.error (uploadNotFoundErr "ghost"), []) ∧
    abortMultipartUploadOp [] "ghost" (.ok ())
      = (.error (uploadNotFoundErr "ghost"), []) := by
  refine ⟨rfl, ?_⟩
  exact multipart_unknownId_errors [] "ghost" 1 [0] (.ok { ETag := some "e" })
    [] (.ok {}) (.ok ()) rfl

/-- C5: a successful completeMultipartUpload or abortMultipartUpload
removes the session for its upload id from the local map, so every
subsequent completeMultipartUpload or abortMultipartUpload with the same
id fails with UPLOAD_NOT_FOUND. -/
theorem multipart_removal_blocks_reuse :
    (∀ (st : SessionMap) (uid : String) (parts : List UploadPartIn)
       (resp : Except JsError CompleteMUResponse) (res : UploadResult) (st2 : SessionMap),
       completeMultipartUploadOp st uid parts resp = (.ok res, st2) →
       ∀ (parts2 : List UploadPartIn) (respC : Except JsError CompleteMUResponse)
         (respA : Except JsError Unit),
         (completeMultipartUploadOp st2 uid parts2 respC).1 = .error (uploadNotFoundErr uid) ∧
         (abortMultipartUploadOp st2 uid respA).1 = .error (uploadNotFoundErr uid)) ∧
    (∀ (st : SessionMap) (uid : String) (resp : Except JsError Unit) (st2 : SessionMap),
       abortMultipartUploadOp st uid resp = (.ok (), st2) →
       ∀ (parts2 : List UploadPartIn) (respC : Except JsError CompleteMUResponse)
         (respA : Except JsError Unit),
         (completeMultipartUploadOp st2 uid parts2 respC).1 = .error (uploadNotFoundErr uid) ∧
         (abortMultipartUploadOp st2 uid respA).1 = .error (uploadNotFoundErr uid)) := by
  constructor
  · intro st uid parts resp res st2 h parts2 respC respA
    have hdel : st2 = mapDelete uid st := complete_ok_state h
    have hnone : lookupKey uid st2 = none := hdel ▸ lookupKey_mapDelete uid st
    exact ⟨by rw [complete_lookup_none parts2 respC hnone],
           by rw [abort_lookup_none respA hnone]⟩
  · intro st uid resp st2 h parts2 respC respA
    have hdel : st2 = mapDelete uid st := abort_ok_state h
    have hnone : lookupKey uid st2 = none := hdel ▸ lookupKey_mapDelete uid st
    exact ⟨by rw [complete_lookup_none parts2 respC hnone],
           by rw [abort_lookup_none respA hnone]⟩

/-- C5 witness: completing the one tracked session empties the map and a
second complete or abort with the same id fails with UPLOAD_NOT_FOUND. -/
theorem multipart_removal_blocks_reuse_witness :
    completeMultipartUploadOp [("u1", { uploadId := "u1", bucket := "b", key := "k" })]
      "u1" [] (.ok {}) = (.ok {}, []) ∧
    (completeMultipartUploadOp [] "u1" [] (.ok {})).1 = .error (uploadNotFoundErr "u1") ∧
    (abortMultipartUploadOp [] "u1" (.ok ())).1 = .error (uploadNotFoundErr "u1") := by
  refine ⟨rfl, ?_⟩
  exact multipart_removal_blocks_reuse.1
    [("u1", { uploadId := "u1", bucket := "b", key := "k" })] "u1" [] (.ok {}) {} []
    rfl [] (.ok {}) (.ok ())

/-- C6: no multipart operation mutates the local session map on a failure
path - whenever createMultipartUpload, uploadPart, completeMultipartUpload
or abortMultipartUpload raises, the map is returned unchanged (uploadPart
never changes it at all) - and removal of a session happens only when the
backend send of the complete or abort command returned success. -/
theorem multipart_failure_no_mutation :
    (∀ (st : SessionMap) (b k : String) (resp : Except JsError CreateMUResponse),
       isErr (createMultipartUploadOp st b k resp).1 = true →
       (createMultipartUploadOp st b k resp).2 = st) ∧
    (∀ (st : SessionMap) (uid : String) (pn : Int) (data : List Nat)
       (resp : Except JsError UploadPartResponse),
       (uploadPartOp st uid pn data resp).2 = st) ∧
    (∀ (st : SessionMap) (uid : String) (parts : List UploadPartIn)
       (resp : Except JsError CompleteMUResponse),
       isErr (completeMultipartUploadOp st uid parts resp).1 = true →
       (completeMultipartUploadOp st uid parts resp).2 = st) ∧
    (∀ (st : SessionMap) (uid : String) (resp : Except JsError Unit),
       isErr (abortMultipartUploadOp st uid resp).1 = true →
       (abortMultipartUploadOp st uid resp).2 = st) ∧
    (∀ (st : SessionMap) (uid : String) (parts : List UploadPartIn)
       (resp : Except JsError CompleteMUResponse),
       (completeMultipartUploadOp st uid parts resp).2 ≠ st →
       ∃ r, resp = .ok r) ∧
    (∀ (st : SessionMap) (uid : String) (resp : Except JsError Unit),
       (abortMultipartUploadOp st uid resp).2 ≠ st → resp = .ok ()) := by
  refine ⟨?_, ?_, ?_, ?_, ?_, ?_⟩
  · intro st b k resp h
    cases resp with
    | error e => rfl
    | ok r =>
      by_cases hf : strOptFalsy r.UploadId
      · simp [createMultipartUploadOp, hf]
      · simp [createMultipartUploadOp, hf, isErr] at h
  · intro st uid pn data resp
    cases hlk : lookupKey uid st with
    | none => simp [uploadPartOp, hlk]
    | some u =>
      cases resp with
      | error e => simp [uploadPartOp, hlk]
      | ok r =>
        by_cases hf : strOptFalsy r.ETag
        · simp [uploadPartOp, hlk, hf]
        · simp [uploadPartOp, hlk, hf]
  · intro st uid parts resp h
    cases hlk : lookupKey uid st with
    | none => simp [completeMultipartUploadOp, hlk]
    | some u =>
      cases resp with
      | error e => simp [completeMultipartUploadOp, hlk]
      | ok r => simp [completeMultipartUploadOp, hlk, isErr] at h
  · intro st uid resp h
    cases hlk : lookupKey uid st with
    | none => simp [abortMultipartUploadOp, hlk]
    | some u =>
      cases resp with
      | error e => simp [abortMultipartUploadOp, hlk]
      | ok r => simp [abortMultipartUploadOp, hlk, isErr] at h
  · intro st uid parts resp h
    cases hlk : lookupKey uid st with
    | none => simp [completeMultipartUploadOp, hlk] at h
    | some u =>
      cases resp with
      | error e => simp [completeMultipartUploadOp, hlk] at h
      | ok r => exact ⟨r, rfl⟩
  · intro st uid resp h
    cases hlk : lookupKey uid st with
    | none => simp [abortMultipartUploadOp, hlk] at h
    | some u =>
      cases resp with
      | error e => simp [abortMultipartUploadOp, hlk] at h
      | ok r => rfl

/-- C6 witness: a create whose response lacks the upload id raises and
leaves the (empty) session map unchanged. -/
theorem multipart_failure_no_mutation_witness :
    isErr (createMultipartUploadOp [] "b" "k" (.ok { UploadId := none })).1 = true ∧
    (createMultipartUploadOp [] "b" "k" (.ok { UploadId := none })).2 = [] := by
  refine ⟨rfl, ?_⟩
  exact multipart_failure_no_mutation.1 [] "b" "k" (.ok { UploadId := none }) rfl

/-- C1: exhibits the bug at the failing input.  When the existence check
succeeds but the name is absent from the subsequent bucket listing (the
race the specification describes), getBucketInfo does construct the
internal error with code NOT_FOUND and status 404, but throws it inside
its own try block: the catch handler re-wraps it through fromS3Error,
which finds no S3 response metadata on a FastlyStorageError and takes its
name as the code - so the surfaced error has code "FastlyStorageError"
and no HTTP status at all, not NOT_FOUND with 404 as the claim states. -/
theorem getBucketInfo_raceErrorClobbered :
    resultErrMessage (getBucketInfoOp "my-bucket" (.ok ()) (.ok { Buckets := some [] }))
      = some "Bucket not found" ∧
    resultErrCode (getBucketInfoOp "my-bucket" (.ok ()) (.ok { Buckets := some [] }))
      = some "FastlyStorageError" ∧
    resultErrStatus (getBucketInfoOp "my-bucket" (.ok ()) (.ok { Buckets := some [] }))
      = some none := by
  exact ⟨rfl, rfl, rfl⟩

/-- C2: exhibits the bug at the failing inputs.  Each defensive error is
constructed with its documented code (EMPTY_BODY for getObject and
getObjectStream on a bodyless response, NO_UPLOAD_ID for a create
response without an upload id, NO_ETAG for a part response without an
ETag - the messages below show those checks firing) but is thrown inside
the operation's own try block, so the catch handler re-wraps it through
fromS3Error and the surfaced error carries code "FastlyStorageError"
instead of the defensive code the claim states. -/
theorem defensiveErrorCodesClobbered :
    resultErrMessage (getObjectOp "b" "k" (.ok { Body := none }) 0)
      = some "Empty response body" ∧
    resultErrCode (getObjectOp "b" "k" (.ok { Body := none }) 0)
      = some "FastlyStorageError" ∧
    resultErrCode (getObjectStreamOp "b" "k" (.ok { Body := none }))
      = some "FastlyStorageError" ∧
    resultErrMessage (createMultipartUploadOp [] "b" "k" (.ok { UploadId := none })).1
      = some "No upload ID returned" ∧
    resultErrCode (createMultipartUploadOp [] "b" "k" (.ok { UploadId := none })).1
      = some "FastlyStorageError" ∧
    resultErrMessage (uploadPartOp [("u1", { uploadId := "u1", bucket := "b", key := "k" })]
        "u1" 1 [7] (.ok { ETag := none })).1
      = some "No ETag returned" ∧
    resultErrCode (uploadPartOp [("u1", { uploadId := "u1", bucket := "b", key := "k" })]
        "u1" 1 [7] (.ok { ETag := none })).1
      = some "FastlyStorageError" := by
  exact ⟨rfl, rfl, rfl, rfl, rfl, rfl, rfl⟩

theorem resolveStr_eq_jsOrStr (a b : Option String) (d : String) :
    resolveStr a b d = jsOrStr a (jsOrStr b d) := by
  cases a with
  | none =>
    cases b with
    | none => rfl
    | some t =>
      by_cases h : t == ""
      · simp [resolveStr, presentStr, jsOrStr, h]
      · simp [resolveStr, presentStr, jsOrStr, h]
  | some s =>
    by_cases hs : s == ""
    · cases b with
      | none => simp [resolveStr, presentStr, jsOrStr, hs]
      | some t =>
        by_cases h : t == ""
        · simp [resolveStr, presentStr, jsOrStr, hs, h]
        · simp [resolveStr, presentStr, jsOrStr, hs, h]
    · simp [resolveStr, presentStr, jsOrStr, hs]

theorem resolveProvided_getD {α : Type} (a : Option α) (d : α) :
    resolveProvided a d = a.getD d := by
  cases a <;> rfl

/-- C7: for every partial configuration and environment, the merged
configuration equals the specification's field-by-field resolution rule:
each explicit field if present (a non-empty string, or any provided value
for the fields merged with the nullish operator), else the same-purpose
environment variable (FASTLY_ENDPOINT, FASTLY_ACCESS_KEY_ID,
FASTLY_SECRET_ACCESS_KEY, FASTLY_REGION), else the hardcoded default:
region us-east-1, maxRetries 3, timeout 30000, forcePathStyle true, the
default logger and the default retry policy of maxRetries 3, retryDelay
1000 and multiplier 2 (endpoint and the credentials have no default and
resolve to the empty string, rejected later by validation). -/
theorem mergeConfig_spec (config : FastlyStorageConfig) (env : Env) :
    mergeConfig config env = mergeConfigSpec config env := by
  cases config
  cases env
  simp [mergeConfig, mergeConfigSpec, resolveStr_eq_jsOrStr, resolveProvided_getD]

/-- C8: construction fails, with an error of code INVALID_CONFIG, exactly
when the merged endpoint, access key id or secret access key is empty,
the endpoint fails the URL syntax check, maxRetries is negative, or
timeout is not positive; otherwise it succeeds.  Because constructClient
only builds the ClientModel (holding the underlying S3 client) in the
success branch, an error result means the facade was not constructed and
no underlying client was created. -/
theorem constructClient_invalidConfig_iff (config : FastlyStorageConfig) (env : Env)
    (urlValid : String → Bool) :
    resultErrCode (constructClient config env urlValid) =
      if invalidConfigCond (mergeConfig config env) urlValid then some "INVALID_CONFIG"
      else none := by
  unfold constructClient invalidConfigCond validateConfig
  set m := mergeConfig config env with hm
  by_cases h1 : m.endpoint == ""
  · simp [h1, resultErrCode]
  by_cases h2 : m.accessKeyId == ""
  · simp [h1, h2, resultErrCode]
  by_cases h3 : m.secretAccessKey == ""
  · simp [h1, h2, h3, resultErrCode]
  by_cases h4 : urlValid m.endpoint
  · by_cases h5 : m.maxRetries < 0
    · simp [h1, h2, h3, h4, h5, resultErrCode]
    by_cases h6 : m.timeout ≤ 0
    · simp [h1, h2, h3, h4, h5, h6, resultErrCode]
    · simp [h1, h2, h3, h4, h5, h6, resultErrCode]
  · simp [h1, h2, h3, h4, resultErrCode]

/-- C9: exhibits the bug at the failing input.  validateBucketName
implements exactly the syntactic rules the claim names and rejects the
two-character name "ab" with INVALID_BUCKET_NAME - but createBucket never
invokes it: with a backend that accepts the request, createBucket "ab"
succeeds, and with a backend rejection the surfaced error is the wrapped
backend error, not INVALID_BUCKET_NAME.  No InvalidBucketName failure is
raised before the network call. -/
theorem createBucket_skipsNameValidation :
    (validateBucketName "ab").map FastlyStorageError.code = some "INVALID_BUCKET_NAME" ∧
    createBucketOp "ab" (.ok ()) = .ok () ∧
    resultErrCode (createBucketOp "ab"
        (.error { name := "InvalidBucketName", message := "Invalid bucket name"
                  metadataStatus := some 400 }))
      = some "InvalidBucketName" := by
  exact ⟨rfl, rfl, rfl⟩

/-- C10: the underlying S3 client is always constructed with a maximum
attempt count of the merged maxRetries plus one, so a configuration with
maxRetries 0 still permits exactly one attempt. -/
theorem s3Client_maxAttempts :
    (∀ c : MergedConfig, (initializeS3Client c).maxAttempts = c.maxRetries + 1) ∧
    (∀ (config : FastlyStorageConfig) (env : Env), config.maxRetries = some 0 →
      (initializeS3Client (mergeConfig config env)).maxAttempts = 1) := by
  constructor
  · intro c
    rfl
  · intro config env h
    show (mergeConfig config env).maxRetries + 1 = 1
    simp [mergeConfig, h]

/-- C10 witness: a configuration explicitly setting maxRetries to 0. -/
theorem s3Client_maxAttempts_witness :
    ({ maxRetries := some 0 } : FastlyStorageConfig).maxRetries = some 0 ∧
    (initializeS3Client (mergeConfig { maxRetries := some 0 } {})).maxAttempts = 1 := by
  refine ⟨rfl, ?_⟩
  exact s3Client_maxAttempts.2 { maxRetries := some 0 } {} rfl
